import Mathlib

/-!
Verification development for the AutoPipelineAI agent-orchestration core.

The Python source (src/src/agents/*.py, src/src/llm/*.py) is shallowly
embedded below.  Datasets (pandas DataFrames) and the external
collaborators (pandas primitives, file readers/writers, the LLM client,
the ydata-profiling report renderer) are modelled by an `Oracle` record
whose fields return `Except String _`: a `.error e` outcome models the
collaborator raising a Python exception whose `str()` is `e`.  Python
dictionaries crossing the task boundary are embedded as structures with
`Option` fields (`none` = key absent), and `dict.get` defaults are applied
exactly where the source applies them.
-/

/-- Python scalar values that appear inside task dictionaries
(fill values, filter comparison values). -/
inductive PyVal : Type
| int (i : Int)
| str (s : String)
deriving DecidableEq, Repr

/-- Character-list test: `n` is an initial segment of `h`. -/
def chars_lead : List Char → List Char → Bool
| [], _ => true
| _ :: _, [] => false
| a :: as, b :: bs => a == b && chars_lead as bs

/-- Character-list test: `n` occurs contiguously inside `h`
(the semantics of the Python `in` operator on strings). -/
def chars_sub (n : List Char) : List Char → Bool
| [] => n.isEmpty
| c :: cs => chars_lead n (c :: cs) || chars_sub n cs

/-- `str_has hay needle`: Python `needle in hay` for strings. -/
def str_has (hay needle : String) : Bool :=
  chars_sub needle.data hay.data

/-- Python `str.lower()` (ASCII-level model via `Char.toLower`). -/
def str_lower (s : String) : String :=
  String.mk (s.data.map Char.toLower)

/-- Python `str.endswith(suffix)`. -/
def str_tail_is (s suffix : String) : Bool :=
  chars_lead suffix.data.reverse s.data.reverse

/-- Python truthiness of an optional string (`None` and `""` are falsy). -/
def py_truthy_str : Option String → Bool
| none => false
| some s => !(s == "")

/-- Python `a or b` on optional strings: yields `b` whenever `a` is falsy. -/
def py_or_str (a b : Option String) : Option String :=
  if py_truthy_str a then a else b

/-- One entry of a task's `transformations` list (a Python dict;
`none` marks an absent key). -/
structure Transform where
  ttype : Option String := none
  columns : Option (List String) := none
  value : Option PyVal := none
  column : Option String := none
  dtype : Option String := none
  mapping : Option (List (String × String)) := none
deriving DecidableEq, Repr

/-- One entry of `filters["custom"]`. -/
structure CustomFilter where
  column : Option String := none
  operator : Option String := none
  value : Option PyVal := none
deriving DecidableEq, Repr

/-- The `filters` dict of an ETL filter task. -/
structure Filters where
  start_date : Option String := none
  end_date : Option String := none
  region : Option String := none
  custom : Option (List CustomFilter) := none
deriving DecidableEq, Repr

/-- A task dictionary as it crosses into the core (spec section 6 wire
shape).  The Python dict key `"type"` is embedded as field `ttype`. -/
structure PTask where
  ttype : Option String := none
  operation : Option String := none
  description : Option String := none
  file_path : Option String := none
  encoding : Option String := none
  transformations : List Transform := []
  filters : Option Filters := none
  output_path : Option String := none
  query : Option String := none
  model : Option String := none
  critical : Option Bool := none
deriving DecidableEq, Repr

/-- The uniform result envelope returned by agents and the orchestrator.
ETL/profiling results leave `llm_response` and `output` at `none`;
reporting-only `metadata` entries are not modelled. -/
structure ExecutionResult (D : Type) where
  success : Bool
  data : Option D := none
  error : Option String := none
  llm_response : Option String := none
  output : Option String := none
deriving DecidableEq

/-- The failure envelope `{success: False, data: None, error: str(e)}`
produced throughout the agents. -/
def fail_result {D : Type} (e : String) : ExecutionResult D :=
  { success := false, data := none, error := some e }

/-- An exception raised by `pd.read_csv`: the source catches
`UnicodeDecodeError` specially and retries with latin1 encoding. -/
inductive ReadErr : Type
| unicode (msg : String)
| other (msg : String)
deriving DecidableEq, Repr

/-- The `str()` form of a read exception. -/
def ReadErr.msg : ReadErr → String
| .unicode m => m
| .other m => m

/-- Decidable equality on collaborator outcomes, for concrete
evaluations. -/
instance {e a : Type} [DecidableEq e] [DecidableEq a] :
    DecidableEq (Except e a) := fun x y =>
  match x, y with
  | Except.ok u, Except.ok v =>
      if h : u = v then Decidable.isTrue (by rw [h])
      else Decidable.isFalse (fun hc => h (by cases hc; rfl))
  | Except.error u, Except.error v =>
      if h : u = v then Decidable.isTrue (by rw [h])
      else Decidable.isFalse (fun hc => h (by cases hc; rfl))
  | Except.ok _, Except.error _ => Decidable.isFalse (fun hc => by cases hc)
  | Except.error _, Except.ok _ => Decidable.isFalse (fun hc => by cases hc)

/-- Output envelope of `SafeCodeExecutor.execute_from_llm_response`.
Modelled from the spec: the original `src/llm/code_executor.py` is not in
the provided source; spec sections 4.6 to 4.8 state it returns
`{success, result, output, error}` and never raises, so it is a total
oracle field. -/
structure SandboxOut (D : Type) where
  success : Bool
  result : Option D := none
  output : Option String := none
  error : Option String := none
deriving DecidableEq

/-- Parsed JSON object returned by `generate_structured_output`
(the planner reads its `task_breakdown` list, defaulting to `[]`). -/
structure PlanResponse where
  task_breakdown : Option (List String) := none
deriving DecidableEq, Repr

/-- External collaborators of the core (pandas primitives, file I/O, the
profiling report renderer, prompt builders and the LLM client).  Each
`Except String _` field models a call that may raise; `.error e` is an
exception with `str() = e`. -/
structure Oracle (D : Type) where
  load_superstore : String → Except String D
  read_csv : String → String → Except ReadErr D
  read_excel : String → Except String D
  read_parquet : String → Except String D
  dropna_all : D → Except String D
  dropna_subset : List String → D → Except String D
  fillna : PyVal → D → Except String D
  astype : Option String → Option String → D → Except String D
  rename_cols : List (String × String) → D → Except String D
  filter_date_region : Option String → Option String → Option String → D → Except String D
  mask_eq : Option String → Option PyVal → D → Except String D
  mask_gt : Option String → Option PyVal → D → Except String D
  mask_lt : Option String → Option PyVal → D → Except String D
  mask_in : Option String → Option PyVal → D → Except String D
  to_csv : String → D → Except String Unit
  to_parquet : String → D → Except String Unit
  to_excel : String → D → Except String Unit
  save_clean : String → D → Except String Unit
  generate_profile : D → String → Except String Unit
  quick_stats : D → Except String D
  data_analysis_prompt : D → Option String → Except String String
  generate_completion : String → String → Except String String
  exec_from_llm : String → D → SandboxOut D
  agent_routing_prompt : String → String
  generate_structured_output : String → String → Except String PlanResponse

/-- Execution context: a mutable string-keyed mapping (`SharedContext`
and the per-call merged context share this shape). -/
def Ctx (D : Type) : Type := String → Option D

/-- The empty context `{}`. -/
def empty_ctx {D : Type} : Ctx D := fun _ => none

/-- Python `{**s, **l}`: keys of `l` win. -/
def merge_ctx {D : Type} (s l : Ctx D) : Ctx D :=
  fun k => match l k with
  | some v => some v
  | none => s k

/-- `ETLAgent.can_handle`: task type is "etl" or its description contains
an ETL keyword (case-insensitive). -/
def etl_can_handle (t : PTask) : Bool :=
  let task_type := str_lower (t.ttype.getD "")
  let description := str_lower (t.description.getD "")
  task_type == "etl" ||
    (["load", "extract", "transform", "clean", "filter", "save", "export"].any
      (fun kw => str_has description kw))

/-- `QueryAgent.can_handle`. -/
def query_can_handle (t : PTask) : Bool :=
  let task_type := str_lower (t.ttype.getD "")
  let description := str_lower (t.description.getD "")
  task_type == "query" ||
    (["query", "question", "analyze", "what", "how", "show", "find", "get"].any
      (fun kw => str_has description kw))

/-- `ProfilingAgent.can_handle`. -/
def profiling_can_handle (t : PTask) : Bool :=
  let task_type := str_lower (t.ttype.getD "")
  let description := str_lower (t.description.getD "")
  task_type == "profile" ||
    (["profile", "quality", "summary", "statistics", "report", "describe"].any
      (fun kw => str_has description kw))

/-- The three agents held by the orchestrator, in registration order. -/
inductive AgentKind : Type
| etl
| query
| profiling
deriving DecidableEq, Repr

/-- `AgentOrchestrator.route_task`: first agent (in the fixed order ETL,
Query, Profiling) whose `can_handle` is true, else `None`. -/
def route_task (t : PTask) : Option AgentKind :=
  if etl_can_handle t then some AgentKind.etl
  else if query_can_handle t then some AgentKind.query
  else if profiling_can_handle t then some AgentKind.profiling
  else none

/-- `ETLAgent._load_data`: extension-dispatched read with the superstore
special case, utf-8 to latin1 retry on `UnicodeDecodeError`, the
unsupported-format branch, and the inner catch prepending
"Failed to load data: ".  A `None` file path raises an `AttributeError`
at `.endswith`, which the same inner catch converts. -/
def load_data {D : Type} (o : Oracle D) (t : PTask) : ExecutionResult D :=
  match t.file_path with
  | none =>
      fail_result ("Failed to load data: " ++
        "AttributeError: NoneType object has no attribute endswith")
  | some fp =>
      if str_tail_is fp ".csv" then
        if str_has (str_lower fp) "superstore" then
          match o.load_superstore fp with
          | .ok df => { success := true, data := some df, error := none }
          | .error e => fail_result ("Failed to load data: " ++ e)
        else
          match o.read_csv fp (t.encoding.getD "utf-8") with
          | .ok df => { success := true, data := some df, error := none }
          | .error (.unicode _) =>
              match o.read_csv fp "latin1" with
              | .ok df => { success := true, data := some df, error := none }
              | .error e2 => fail_result ("Failed to load data: " ++ e2.msg)
          | .error (.other m) => fail_result ("Failed to load data: " ++ m)
      else if str_tail_is fp ".xlsx" || str_tail_is fp ".xls" then
        match o.read_excel fp with
        | .ok df => { success := true, data := some df, error := none }
        | .error e => fail_result ("Failed to load data: " ++ e)
      else if str_tail_is fp ".parquet" then
        match o.read_parquet fp with
        | .ok df => { success := true, data := some df, error := none }
        | .error e => fail_result ("Failed to load data: " ++ e)
      else
        fail_result ("Unsupported file format: " ++ fp)

/-- One iteration of the `for transform in transformations` loop in
`ETLAgent._transform_data`.  `drop_nulls` checks Python truthiness of
`columns` (absent or empty list falls back to a full `dropna()`);
`fill_nulls` defaults the fill value to `0`; unrecognised types are
silently skipped (no `else` branch in the source). -/
def transform_step {D : Type} (o : Oracle D) (df : D) (tr : Transform) :
    Except String D :=
  if tr.ttype == some "drop_nulls" then
    match tr.columns with
    | some (c :: cs) => o.dropna_subset (c :: cs) df
    | some [] => o.dropna_all df
    | none => o.dropna_all df
  else if tr.ttype == some "fill_nulls" then
    o.fillna (tr.value.getD (PyVal.int 0)) df
  else if tr.ttype == some "convert_type" then
    o.astype tr.column tr.dtype df
  else if tr.ttype == some "rename" then
    o.rename_cols (tr.mapping.getD []) df
  else
    Except.ok df

/-- The transformation loop: applies `transform_step` strictly in list
order, propagating the first raised exception. -/
def apply_transforms {D : Type} (o : Oracle D) (df : D) :
    List Transform → Except String D
| [] => Except.ok df
| tr :: trs =>
    match transform_step o df tr with
    | .ok df2 => apply_transforms o df2 trs
    | .error e => Except.error e

/-- `ETLAgent._transform_data`: requires `context["df"]`, then runs the
transformation loop inside a catch that prepends "Transformation failed: ". -/
def transform_data {D : Type} (o : Oracle D) (t : PTask) (c : Ctx D) :
    ExecutionResult D :=
  match c "df" with
  | none => fail_result "No DataFrame in context"
  | some df =>
      match apply_transforms o df t.transformations with
      | .ok df2 => { success := true, data := some df2, error := none }
      | .error e => fail_result ("Transformation failed: " ++ e)

/-- One iteration of the custom-filter loop in `ETLAgent._filter_data`:
dispatch on the operator (default "=="); unrecognised operators leave the
dataset unchanged. -/
def custom_filter_step {D : Type} (o : Oracle D) (df : D) (f : CustomFilter) :
    Except String D :=
  let op := f.operator.getD "=="
  if op == "==" then o.mask_eq f.column f.value df
  else if op == ">" then o.mask_gt f.column f.value df
  else if op == "<" then o.mask_lt f.column f.value df
  else if op == "in" then o.mask_in f.column f.value df
  else Except.ok df

/-- The custom-filter loop, in list order. -/
def apply_custom_filters {D : Type} (o : Oracle D) (df : D) :
    List CustomFilter → Except String D
| [] => Except.ok df
| f :: fs =>
    match custom_filter_step o df f with
    | .ok df2 => apply_custom_filters o df2 fs
    | .error e => Except.error e

/-- The `filter_data(df, start_date, end_date, region)` convenience call,
made only when any of the three fields is Python-truthy. -/
def filter_conv {D : Type} (o : Oracle D) (fs : Filters) (df : D) :
    Except String D :=
  if py_truthy_str fs.start_date || py_truthy_str fs.end_date ||
      py_truthy_str fs.region then
    o.filter_date_region fs.start_date fs.end_date fs.region df
  else Except.ok df

/-- The try-block body of `ETLAgent._filter_data`: the convenience filter
followed by the custom predicates, in order. -/
def filter_body {D : Type} (o : Oracle D) (t : PTask) (df : D) :
    Except String D :=
  let fs := t.filters.getD {}
  match filter_conv o fs df with
  | .error e => Except.error e
  | .ok df1 => apply_custom_filters o df1 (fs.custom.getD [])

/-- `ETLAgent._filter_data`: requires `context["df"]`; applies the
date/region convenience filter when any of the three fields is truthy,
then the custom predicates in order; the catch prepends
"Filtering failed: ". -/
def filter_data {D : Type} (o : Oracle D) (t : PTask) (c : Ctx D) :
    ExecutionResult D :=
  match c "df" with
  | none => fail_result "No DataFrame in context"
  | some df =>
      match filter_body o t df with
      | .ok df2 => { success := true, data := some df2, error := none }
      | .error e => fail_result ("Filtering failed: " ++ e)

/-- The try-block body of `ETLAgent._save_data`: a `None` output path
raises at `.endswith`; otherwise the write is dispatched on the
extension, falling back to `save_clean_data` (both canonical formats). -/
def save_body {D : Type} (o : Oracle D) (t : PTask) (df : D) :
    Except String Unit :=
  match t.output_path with
  | none =>
      Except.error "AttributeError: NoneType object has no attribute endswith"
  | some op =>
      if str_tail_is op ".csv" then o.to_csv op df
      else if str_tail_is op ".parquet" then o.to_parquet op df
      else if str_tail_is op ".xlsx" || str_tail_is op ".xls" then
        o.to_excel op df
      else o.save_clean op df

/-- `ETLAgent._save_data`: requires `context["df"]`; runs the save body
with a catch prepending "Save failed: ".  A successful save returns
`data = None`. -/
def save_data {D : Type} (o : Oracle D) (t : PTask) (c : Ctx D) :
    ExecutionResult D :=
  match c "df" with
  | none => fail_result "No DataFrame in context"
  | some df =>
      match save_body o t df with
      | .ok _ => { success := true, data := none, error := none }
      | .error e => fail_result ("Save failed: " ++ e)

/-- `ETLAgent.execute`: dispatch on `operation` (default "load"); unknown
operations yield a structured failure naming the operation.  Every branch
is already a total structured result, matching the outer catch-all in the
source. -/
def etl_execute {D : Type} (o : Oracle D) (t : PTask) (c : Ctx D) :
    ExecutionResult D :=
  if t.operation.getD "load" == "load" then load_data o t
  else if t.operation.getD "load" == "transform" then transform_data o t c
  else if t.operation.getD "load" == "save" then save_data o t c
  else if t.operation.getD "load" == "filter" then filter_data o t c
  else fail_result ("Unknown operation: " ++ t.operation.getD "load")

/-- The body of the `try` block in `QueryAgent.execute`: pick the query
text (Python `or`, so an empty `query` falls back to `description`),
require `context["df"]`, build the prompt, call the LLM, and run the
response through the safe code executor.  A `.error` outcome is an
exception escaping to the agent's catch-all. -/
def query_body {D : Type} (o : Oracle D) (t : PTask) (c : Ctx D) :
    Except String (ExecutionResult D) :=
  match c "df" with
  | none => Except.ok (fail_result "No DataFrame provided in context")
  | some df =>
      match o.data_analysis_prompt df (py_or_str t.query t.description) with
      | .error e => Except.error e
      | .ok prompt =>
          match o.generate_completion prompt (t.model.getD "llama3") with
          | .error e => Except.error e
          | .ok llm_response =>
              Except.ok
                { success := (o.exec_from_llm llm_response df).success
                  data := (o.exec_from_llm llm_response df).result
                  error := (o.exec_from_llm llm_response df).error
                  llm_response := some llm_response
                  output := (o.exec_from_llm llm_response df).output }

/-- `QueryAgent.execute`: the try body with the catch-all converting an
exception into `{success: False, data: None, error: str(e)}`. -/
def query_execute {D : Type} (o : Oracle D) (t : PTask) (c : Ctx D) :
    ExecutionResult D :=
  match query_body o t c with
  | .ok r => r
  | .error e => fail_result e

/-- The body of the `try` block in `ProfilingAgent.execute`: requires
`context["df"]`, renders the HTML report via `generate_profile` (whose
exception propagates: there is no inner catch around it), then computes
the quick statistics. -/
def profiling_body {D : Type} (o : Oracle D) (t : PTask) (c : Ctx D) :
    Except String (ExecutionResult D) :=
  match c "df" with
  | none => Except.ok (fail_result "No DataFrame provided in context")
  | some df =>
      match o.generate_profile df (t.output_path.getD "data/reports/profile.html") with
      | .error e => Except.error e
      | .ok _ =>
          match o.quick_stats df with
          | .error e => Except.error e
          | .ok stats =>
              Except.ok { success := true, data := some stats, error := none }

/-- `ProfilingAgent.execute`: try body plus the catch-all. -/
def profiling_execute {D : Type} (o : Oracle D) (t : PTask) (c : Ctx D) :
    ExecutionResult D :=
  match profiling_body o t c with
  | .ok r => r
  | .error e => fail_result e

/-- Dispatch to the routed agent's `execute`. -/
def agent_execute {D : Type} (o : Oracle D) (k : AgentKind) (t : PTask)
    (c : Ctx D) : ExecutionResult D :=
  match k with
  | .etl => etl_execute o t c
  | .query => query_execute o t c
  | .profiling => profiling_execute o t c

/-- The merged per-call context of `AgentOrchestrator.execute_task`:
`{**self.context, **(context or {})}` (task-local keys win). -/
def execution_context {D : Type} (s : Ctx D) (loc : Option (Ctx D)) : Ctx D :=
  merge_ctx s (loc.getD empty_ctx)

/-- `AgentOrchestrator.execute_task` over the orchestrator's shared
context `s`: route, fail structurally when no agent matches, execute on
the merged context, and write `result["data"]` back into the shared
context under "df" exactly when the result succeeded with non-null data.
Returns the result together with the new shared context. -/
def execute_task {D : Type} (o : Oracle D) (t : PTask) (loc : Option (Ctx D))
    (s : Ctx D) : ExecutionResult D × Ctx D :=
  match route_task t with
  | none =>
      (fail_result
        ("No agent available to handle task type: " ++ t.ttype.getD "unknown"),
       s)
  | some k =>
      let r := agent_execute o k t (execution_context s loc)
      match r.data with
      | some d =>
          if r.success then
            (r, fun key => if key == "df" then some d else s key)
          else (r, s)
      | none => (r, s)

/-- `AgentOrchestrator.execute_workflow`: strictly sequential execution,
one result appended per processed task, stopping right after a failed
task marked critical (`task.get("critical", False)`). -/
def execute_workflow {D : Type} (o : Oracle D) (s : Ctx D) :
    List PTask → List (ExecutionResult D) × Ctx D
| [] => ([], s)
| t :: ts =>
    let rs := execute_task o t none s
    if !rs.1.success && (t.critical.getD false) then ([rs.1], rs.2)
    else
      let rest := execute_workflow o rs.2 ts
      (rs.1 :: rest.1, rest.2)

/-- `AgentOrchestrator._infer_task_from_step`: keyword heuristics in the
source's priority order; the final two branches both produce a query
task, so the function is total (the Python `if task:` guard never fires). -/
def infer_task_from_step (step : String) : PTask :=
  let sl := str_lower step
  if ["load", "read", "import"].any (fun kw => str_has sl kw) then
    { ttype := some "etl", operation := some "load", description := some step }
  else if ["filter", "select", "where"].any (fun kw => str_has sl kw) then
    { ttype := some "etl", operation := some "filter", description := some step }
  else if ["save", "export", "write"].any (fun kw => str_has sl kw) then
    { ttype := some "etl", operation := some "save", description := some step }
  else if ["profile", "report", "summary"].any (fun kw => str_has sl kw) then
    { ttype := some "profile", description := some step }
  else if ["query", "find", "show", "get", "calculate"].any
      (fun kw => str_has sl kw) then
    { ttype := some "query", description := some step }
  else
    { ttype := some "query", description := some step }

/-- `AgentOrchestrator.parse_natural_language_workflow`: ask the LLM for
a structured breakdown and map each step to a task; if the structured
call raises (network error, invalid JSON), fall back to a single query
task carrying the original request verbatim. -/
def parse_natural_language_workflow {D : Type} (o : Oracle D)
    (user_request : String) (model : String) : List PTask :=
  let prompt := o.agent_routing_prompt user_request
  match o.generate_structured_output prompt model with
  | .ok resp => (resp.task_breakdown.getD []).map infer_task_from_step
  | .error _ =>
      [{ ttype := some "query", description := some user_request,
         query := some user_request }]

/-- Modelled from the spec: expressions of the model-authored code run by
`SafeCodeExecutor.execute_code` (src/llm/code_executor.py is absent from
the provided source; only its tests and call sites exist).  Spec section
4.8 describes execution of accepted code over a restricted namespace, so
code is embedded as a small statement language over integer values. -/
inductive SExpr : Type
| lit (i : Int)
| var (x : String)
| add (a b : SExpr)
deriving DecidableEq, Repr

/-- Modelled from the spec: statements of the sandboxed code (assignment
into the local namespace, and printing to the captured stdout). -/
inductive SStmt : Type
| assign (x : String) (e : SExpr)
| print_val (e : SExpr)
deriving DecidableEq, Repr

/-- Expression evaluation: names resolve locals first, then the supplied
globals; an unknown name raises a `NameError`. -/
def eval_expr (g loc : List (String × Int)) : SExpr → Except String Int
| .lit i => Except.ok i
| .var x =>
    match List.lookup x loc with
    | some v => Except.ok v
    | none =>
        match List.lookup x g with
        | some v => Except.ok v
        | none => Except.error ("NameError: name is not defined: " ++ x)
| .add a b =>
    match eval_expr g loc a with
    | .error e => Except.error e
    | .ok va =>
        match eval_expr g loc b with
        | .error e => Except.error e
        | .ok vb => Except.ok (va + vb)

/-- Straight-line execution of the sandboxed statements, threading the
local namespace and the captured stdout; the first raised exception
aborts execution. -/
def run_stmts (g : List (String × Int)) :
    List SStmt → List (String × Int) → String →
    Option String × List (String × Int) × String
| [], loc, out => (none, loc, out)
| .assign x e :: rest, loc, out =>
    match eval_expr g loc e with
    | .ok v => run_stmts g rest ((x, v) :: loc) out
    | .error m => (some m, loc, out)
| .print_val e :: rest, loc, out =>
    match eval_expr g loc e with
    | .ok v => run_stmts g rest loc (out ++ toString v ++ "\n")
    | .error m => (some m, loc, out)

/-- Modelled from the spec: `SafeCodeExecutor.execute_code` (spec section
4.8).  Runs the code with the given globals and a fresh empty local
namespace, captures stdout, reads the local binding `result` afterwards
(absence yields `result = None` without failing), catches any exception
into `error`, and sets `success` iff execution completed without
raising. -/
def execute_code (code : List SStmt) (g : List (String × Int)) :
    SandboxOut Int :=
  match run_stmts g code [] "" with
  | (some m, _, out) =>
      { success := false, result := none, output := some out, error := some m }
  | (none, loc, out) =>
      { success := true, result := List.lookup "result" loc,
        output := some out, error := none }

/-- The workflow run with the critical-abort rule removed: one result per
task, strictly in order.  Used to characterise `execute_workflow` as a
prefix of this full run. -/
def run_all {D : Type} (o : Oracle D) (s : Ctx D) :
    List PTask → List (ExecutionResult D) × Ctx D
| [] => ([], s)
| t :: ts =>
    let rs := execute_task o t none s
    let rest := run_all o rs.2 ts
    (rs.1 :: rest.1, rest.2)

/-- Number of tasks `execute_workflow` processes: everything up to and
including the first critical failure, else the whole list. -/
def stop_len {D : Type} (o : Oracle D) (s : Ctx D) : List PTask → Nat
| [] => 0
| t :: ts =>
    let rs := execute_task o t none s
    if !rs.1.success && t.critical.getD false then 1
    else 1 + stop_len o rs.2 ts

/-- The sandbox contract stated by spec section 4.8 for the (absent)
`SafeCodeExecutor`: a failed execution always carries an error message. -/
def sandbox_wf {D : Type} (o : Oracle D) : Prop :=
  ∀ resp df, (o.exec_from_llm resp df).success = false →
    (o.exec_from_llm resp df).error ≠ none

/-- A context holding only the active dataset. -/
def ctx_df {D : Type} (d : D) : Ctx D :=
  fun k => if k == "df" then some d else none

/-- Demo collaborators over `D = Nat` for concrete evaluations: every
call succeeds and the dataset transitions are injectively numbered. -/
def o_demo : Oracle Nat where
  load_superstore := fun _ => Except.ok 1
  read_csv := fun _ _ => Except.ok 2
  read_excel := fun _ => Except.ok 3
  read_parquet := fun _ => Except.ok 4
  dropna_all := fun d => Except.ok (d + 10)
  dropna_subset := fun _ d => Except.ok (d + 20)
  fillna := fun _ d => Except.ok (d + 30)
  astype := fun _ _ d => Except.ok (d + 40)
  rename_cols := fun _ d => Except.ok (d + 50)
  filter_date_region := fun _ _ _ d => Except.ok (d + 60)
  mask_eq := fun _ _ d => Except.ok (d + 61)
  mask_gt := fun _ _ d => Except.ok (d + 62)
  mask_lt := fun _ _ d => Except.ok (d + 63)
  mask_in := fun _ _ d => Except.ok (d + 64)
  to_csv := fun _ _ => Except.ok ()
  to_parquet := fun _ _ => Except.ok ()
  to_excel := fun _ _ => Except.ok ()
  save_clean := fun _ _ => Except.ok ()
  generate_profile := fun _ _ => Except.ok ()
  quick_stats := fun d => Except.ok (d + 90)
  data_analysis_prompt := fun _ _ => Except.ok "analysis prompt"
  generate_completion := fun _ _ => Except.ok "llm answer"
  exec_from_llm := fun _ df =>
    { success := true, result := some df, output := some "", error := none }
  agent_routing_prompt := fun r => r
  generate_structured_output := fun _ _ => Except.error "ConnectionError"

/-- Demo collaborators where the HTML report renderer raises. -/
def o_report_fail : Oracle Nat :=
  { o_demo with generate_profile := fun _ _ => Except.error "disk full" }

/-- Demo collaborators where the LLM completion call raises. -/
def o_llm_fail : Oracle Nat :=
  { o_demo with generate_completion := fun _ _ => Except.error "connection refused" }

/-- Demo collaborators where a type conversion raises. -/
def o_astype_fail : Oracle Nat :=
  { o_demo with astype := fun _ _ _ => Except.error "invalid dtype" }

/-- A critical transform task that fails when the context has no dataset. -/
def task_crit_fail : PTask :=
  { ttype := some "etl", operation := some "transform", critical := some true }

/-- A non-critical variant of the same failing task. -/
def task_fail_soft : PTask :=
  { ttype := some "etl", operation := some "transform", critical := some false }

/-- A load task producing a dataset. -/
def task_load_csv : PTask :=
  { ttype := some "etl", operation := some "load",
    file_path := some "data.csv" }

/-- A profiling task. -/
def task_profile : PTask := { ttype := some "profile" }

/-- A task no agent can handle: unknown type, keyword-free description. -/
def task_unroutable : PTask :=
  { ttype := some "zzz", description := some "mysterious step" }

/-- A query task. -/
def task_query_demo : PTask :=
  { ttype := some "query", query := some "total sales" }

/-- A transform task with a convert-type step followed by a rename step. -/
def task_transform_demo : PTask :=
  { ttype := some "etl", operation := some "transform",
    transformations :=
      [{ ttype := some "convert_type", column := some "a", dtype := some "int" },
       { ttype := some "rename", mapping := some [("a", "b")] }] }

/-- A task whose description matches both ETL ("load") and profiling
("profile") keywords, and whose type also matches the profiling agent. -/
def task_tiebreak_demo : PTask :=
  { ttype := some "profile", description := some "load and profile the data" }

/-- All agent keywords, for stating that a description matches none. -/
def all_agent_keywords : List String :=
  ["load", "extract", "transform", "clean", "filter", "save", "export",
   "query", "question", "analyze", "what", "how", "show", "find", "get",
   "profile", "quality", "summary", "statistics", "report", "describe"]

/-- A structurally sound result: failure always carries an error. -/
def wf_result {D : Type} (r : ExecutionResult D) : Prop :=
  r.success = false → r.error ≠ none

/-- C6: `route_task` returns the first agent in the fixed order ETL,
Query, Profiling whose `can_handle` holds, where `can_handle` is a type
match or a case-insensitive keyword-substring match on the description
(ETL keywords: load, extract, transform, clean, filter, save, export);
an ETL-keyword description therefore routes to ETL even when a later
agent also matches. -/
theorem route_first_match (t : PTask) :
    (etl_can_handle t = true → route_task t = some AgentKind.etl)
    ∧ (route_task t = some AgentKind.query ↔
        etl_can_handle t = false ∧ query_can_handle t = true)
    ∧ (route_task t = some AgentKind.profiling ↔
        etl_can_handle t = false ∧ query_can_handle t = false ∧
          profiling_can_handle t = true)
    ∧ (route_task t = none ↔
        etl_can_handle t = false ∧ query_can_handle t = false ∧
          profiling_can_handle t = false)
    ∧ etl_can_handle t =
        ((str_lower (t.ttype.getD "") == "etl") ||
          (["load", "extract", "transform", "clean", "filter", "save",
            "export"].any
            (fun kw => str_has (str_lower (t.description.getD "")) kw))) := by
  refine ⟨?_, ?_, ?_, ?_, rfl⟩ <;>
    cases hE : etl_can_handle t <;>
      cases hQ : query_can_handle t <;>
        cases hP : profiling_can_handle t <;>
          simp [route_task, hE, hQ, hP]

/-- Witness for C6: the tie-break task routes to ETL. -/
theorem route_first_match_witness :
    route_task task_tiebreak_demo = some AgentKind.etl :=
  (route_first_match task_tiebreak_demo).1 (by decide)

/-- C5: an unrecognised task type together with a keyword-free
description defeats every `can_handle`, so `route_task` is `None` and
`execute_task` produces the structured routing failure naming the
task type, leaving the shared context untouched. -/
theorem route_no_match (t : PTask)
    (h1 : str_lower (t.ttype.getD "") ∉
      (["etl", "query", "profile"] : List String))
    (h2 : ∀ kw ∈ all_agent_keywords,
      str_has (str_lower (t.description.getD "")) kw = false) :
    route_task t = none ∧
    ∀ {D : Type} (o : Oracle D) (loc : Option (Ctx D)) (s : Ctx D),
      (execute_task o t loc s).1 =
        fail_result
          ("No agent available to handle task type: " ++ t.ttype.getD "unknown")
      ∧ (execute_task o t loc s).2 = s := by
  have hty : ∀ k ∈ (["etl", "query", "profile"] : List String),
      (str_lower (t.ttype.getD "") == k) = false := by
    intro k hk
    simp only [beq_eq_false_iff_ne, ne_eq]
    intro hcontra
    exact h1 (hcontra ▸ hk)
  have hkw : ∀ kw ∈ all_agent_keywords,
      str_has (str_lower (t.description.getD "")) kw = false := h2
  have d1 := h2 "load" (by decide)
  have d2 := h2 "extract" (by decide)
  have d3 := h2 "transform" (by decide)
  have d4 := h2 "clean" (by decide)
  have d5 := h2 "filter" (by decide)
  have d6 := h2 "save" (by decide)
  have d7 := h2 "export" (by decide)
  have q1 := h2 "query" (by decide)
  have q2 := h2 "question" (by decide)
  have q3 := h2 "analyze" (by decide)
  have q4 := h2 "what" (by decide)
  have q5 := h2 "how" (by decide)
  have q6 := h2 "show" (by decide)
  have q7 := h2 "find" (by decide)
  have q8 := h2 "get" (by decide)
  have p1 := h2 "profile" (by decide)
  have p2 := h2 "quality" (by decide)
  have p3 := h2 "summary" (by decide)
  have p4 := h2 "statistics" (by decide)
  have p5 := h2 "report" (by decide)
  have p6 := h2 "describe" (by decide)
  have hE : etl_can_handle t = false := by
    simp [etl_can_handle, hty "etl" (by simp), d1, d2, d3, d4, d5, d6, d7]
  have hQ : query_can_handle t = false := by
    simp [query_can_handle, hty "query" (by simp), q1, q2, q3, q4, q5, q6, q7, q8]
  have hP : profiling_can_handle t = false := by
    simp [profiling_can_handle, hty "profile" (by simp), p1, p2, p3, p4, p5, p6]
  have hroute : route_task t = none := by
    simp [route_task, hE, hQ, hP]
  refine ⟨hroute, ?_⟩
  intro D o loc s
  constructor <;> simp [execute_task, hroute]

/-- Witness for C5 at the concrete unroutable task. -/
theorem route_no_match_witness :
    route_task task_unroutable = none ∧
    (execute_task o_demo task_unroutable none empty_ctx).1 =
      fail_result "No agent available to handle task type: zzz" := by
  have h := route_no_match task_unroutable (by decide) (by decide)
  exact ⟨h.1, (h.2 o_demo none empty_ctx).1⟩

/-- C4: `execute_code` never propagates an exception (it is a total
function into the `{success, result, output, error}` envelope); `success`
is true iff execution completed without raising, a raised exception is
reported via `error`, `result = 2 + 2` yields `{success: true, result: 4}`
and reading an undefined name yields
`{success: false, error ≠ None, result: None}`. -/
theorem execute_code_contract :
    (∀ code g, (execute_code code g).success = true ↔
        (run_stmts g code [] "").1 = none)
    ∧ (∀ code g m loc out, run_stmts g code [] "" = (some m, loc, out) →
        execute_code code g =
          { success := false, result := none, output := some out,
            error := some m })
    ∧ execute_code [SStmt.assign "result" (SExpr.add (SExpr.lit 2) (SExpr.lit 2))] [] =
        { success := true, result := some 4, output := some "", error := none }
    ∧ execute_code [SStmt.assign "result" (SExpr.var "undefined_variable")] [] =
        { success := false, result := none, output := some "",
          error := some "NameError: name is not defined: undefined_variable" } := by
  refine ⟨?_, ?_, by decide, by decide⟩
  · intro code g
    rcases h : run_stmts g code [] "" with ⟨e, loc, out⟩
    cases e <;> simp [execute_code, h]
  · intro code g m loc out h
    simp [execute_code, h]

/-- Witness for C4. -/
theorem execute_code_contract_witness :
    (execute_code [SStmt.assign "r" (SExpr.lit 1)] []).success = true :=
  (execute_code_contract.1 [SStmt.assign "r" (SExpr.lit 1)] []).mpr (by decide)

/-- C7: when the structured planning call raises, the planner does not
raise and returns exactly one task of type `query` whose `query` field is
the original request, verbatim. -/
theorem planner_fallback {D : Type} (o : Oracle D) (req model e : String)
    (h : o.generate_structured_output (o.agent_routing_prompt req) model =
      Except.error e) :
    parse_natural_language_workflow o req model =
      [{ ttype := some "query", description := some req, query := some req }]
    ∧ (parse_natural_language_workflow o req model).length = 1
    ∧ ∀ t0 ∈ parse_natural_language_workflow o req model,
        t0.ttype = some "query" ∧ t0.query = some req := by
  have hmain : parse_natural_language_workflow o req model =
      [{ ttype := some "query", description := some req, query := some req }] := by
    simp [parse_natural_language_workflow, h]
  refine ⟨hmain, by rw [hmain]; rfl, ?_⟩
  intro t0 ht0
  rw [hmain] at ht0
  simp only [List.mem_singleton] at ht0
  subst ht0
  exact ⟨rfl, rfl⟩

/-- Witness for C7: the demo LLM client raises on structured output. -/
theorem planner_fallback_witness :
    parse_natural_language_workflow o_demo "show revenue" "llama3" =
      [{ ttype := some "query", description := some "show revenue",
         query := some "show revenue" }] :=
  (planner_fallback o_demo "show revenue" "llama3" "ConnectionError" rfl).1

/-- Counterexample to C8 as stated: with a dataset in context and a
report renderer that raises, the quick statistics would have been
computable (`quick_stats 5 = 95`), yet `ProfilingAgent.execute` returns
`success = false` with no data — the delegation failure does invalidate
the quick-stats result, because `generate_profile` is called inside the
same `try` block before the quick stats are computed, with no inner
catch. -/
theorem profiling_report_fail_cex :
    (profiling_execute o_report_fail task_profile (ctx_df 5)).success = false
    ∧ (profiling_execute o_report_fail task_profile (ctx_df 5)).data = none
    ∧ o_report_fail.quick_stats 5 = Except.ok 95 := by decide

/-- C8 (amended): a failure of the delegated HTML-report rendering is
caught by the agent's catch-all and surfaces as a structured failure
`{success: false, data: None, error: str(e)}`; the quick statistics are
not computed in that case. -/
theorem profiling_report_fail_propagates {D : Type} (o : Oracle D)
    (t : PTask) (c : Ctx D) (df : D) (e : String)
    (h1 : c "df" = some df)
    (h2 : o.generate_profile df (t.output_path.getD "data/reports/profile.html") =
      Except.error e) :
    profiling_execute o t c = fail_result e := by
  simp [profiling_execute, profiling_body, h1, h2]

/-- Witness for the amended C8. -/
theorem profiling_report_fail_witness :
    profiling_execute o_report_fail task_profile (ctx_df 5) =
      fail_result "disk full" :=
  profiling_report_fail_propagates o_report_fail task_profile (ctx_df 5) 5
    "disk full" (by decide) (by decide)

/-- `execute_workflow` is the prefix of the stop-free run cut at
`stop_len`. -/
theorem execute_workflow_take {D : Type} (o : Oracle D) :
    ∀ (ts : List PTask) (s : Ctx D),
      (execute_workflow o s ts).1 = ((run_all o s ts).1).take (stop_len o s ts) := by
  intro ts
  induction ts with
  | nil => intro s; rfl
  | cons t ts ih =>
      intro s
      simp only [execute_workflow, run_all, stop_len]
      cases hb : (!(execute_task o t none s).1.success && t.critical.getD false) <;>
        simp [hb, ih, Nat.one_add]

/-- `execute_workflow` never processes more tasks than it was given. -/
theorem stop_len_le {D : Type} (o : Oracle D) :
    ∀ (ts : List PTask) (s : Ctx D), stop_len o s ts ≤ ts.length := by
  intro ts
  induction ts with
  | nil => intro s; exact Nat.le_refl 0
  | cons t ts ih =>
      intro s
      simp only [stop_len, List.length_cons]
      cases hb : (!(execute_task o t none s).1.success && t.critical.getD false)
      · simpa [hb, Nat.one_add] using Nat.succ_le_succ (ih _)
      · simp [hb]

/-- One result is accumulated per processed task. -/
theorem execute_workflow_length {D : Type} (o : Oracle D) :
    ∀ (ts : List PTask) (s : Ctx D),
      (execute_workflow o s ts).1.length = stop_len o s ts := by
  intro ts
  induction ts with
  | nil => intro s; rfl
  | cons t ts ih =>
      intro s
      simp only [execute_workflow, stop_len]
      cases hb : (!(execute_task o t none s).1.success && t.critical.getD false) <;>
        simp [hb, ih, Nat.one_add]

/-- C1: tasks are processed strictly in order with one result per
processed task (the result list is the `stop_len` prefix of the stop-free
run); a failed critical task aborts immediately, so for
`[A(critical, fails), B]` exactly one result comes back and the result
list is shorter than the task list whenever tasks remain; a failed
non-critical task does not stop execution. -/
theorem workflow_critical_abort {D : Type} (o : Oracle D) :
    (∀ (s : Ctx D) ts, (execute_workflow o s ts).1 =
        ((run_all o s ts).1).take (stop_len o s ts))
    ∧ (∀ (s : Ctx D) ts, (execute_workflow o s ts).1.length = stop_len o s ts ∧
        stop_len o s ts ≤ ts.length)
    ∧ (∀ (s : Ctx D) A B, (execute_task o A none s).1.success = false →
        A.critical.getD false = true →
        (execute_workflow o s [A, B]).1 = [(execute_task o A none s).1])
    ∧ (∀ (s : Ctx D) A B ts, (execute_task o A none s).1.success = false →
        A.critical.getD false = true →
        (execute_workflow o s (A :: B :: ts)).1.length < (A :: B :: ts).length)
    ∧ (∀ (s : Ctx D) A ts, (execute_task o A none s).1.success = false →
        A.critical.getD false = false →
        (execute_workflow o s (A :: ts)).1 =
          (execute_task o A none s).1 ::
            (execute_workflow o (execute_task o A none s).2 ts).1) := by
  refine ⟨fun s ts => execute_workflow_take o ts s,
    fun s ts => ⟨execute_workflow_length o ts s, stop_len_le o ts s⟩,
    ?_, ?_, ?_⟩
  · intro s A B h1 h2
    simp [execute_workflow, h1, h2]
  · intro s A B ts h1 h2
    simp [execute_workflow, h1, h2]
  · intro s A ts h1 h2
    simp [execute_workflow, h1, h2]

/-- Witness for C1: the two-task workflow with a failing critical first
task yields exactly one result. -/
theorem workflow_critical_abort_witness :
    (execute_workflow o_demo empty_ctx [task_crit_fail, task_profile]).1.length = 1 := by
  have h := (workflow_critical_abort o_demo).2.2.1 empty_ctx task_crit_fail
    task_profile (by decide) (by decide)
  rw [h]
  rfl

/-- The shared-context update discipline of `execute_task`: written only
on success with non-null data, and then only at key "df". -/
theorem execute_task_ctx_update {D : Type} (o : Oracle D) (t : PTask)
    (loc : Option (Ctx D)) (s : Ctx D) :
    (∀ d, (execute_task o t loc s).1.success = true →
        (execute_task o t loc s).1.data = some d →
        (execute_task o t loc s).2 =
          fun key => if key == "df" then some d else s key)
    ∧ ((execute_task o t loc s).1.success = false →
        (execute_task o t loc s).2 = s)
    ∧ ((execute_task o t loc s).1.data = none →
        (execute_task o t loc s).2 = s) := by
  cases hr : route_task t with
  | none =>
      refine ⟨?_, ?_, ?_⟩ <;> simp [execute_task, hr, fail_result]
  | some k =>
      cases hd : (agent_execute o k t (execution_context s loc)).data with
      | none =>
          refine ⟨?_, ?_, ?_⟩ <;> simp [execute_task, hr, hd]
      | some d0 =>
          cases hs : (agent_execute o k t (execution_context s loc)).success with
          | false =>
              refine ⟨?_, ?_, ?_⟩ <;> simp [execute_task, hr, hd, hs]
          | true =>
              refine ⟨?_, ?_, ?_⟩ <;> simp [execute_task, hr, hd, hs]

/-- C3: the shared context is mutated only by a successful task with
non-null data, which is written under "df"; a failed task or a successful
task with null data leaves it unchanged; consequently in a two-task
workflow the second task's merged execution context carries the first
task's data under "df", and both tasks produce a result. -/
theorem context_update_rule {D : Type} (o : Oracle D) :
    (∀ t loc (s : Ctx D) d, (execute_task o t loc s).1.success = true →
        (execute_task o t loc s).1.data = some d →
        (execute_task o t loc s).2 =
          fun key => if key == "df" then some d else s key)
    ∧ (∀ t loc (s : Ctx D), ((execute_task o t loc s).1.success = false ∨
        (execute_task o t loc s).1.data = none) →
        (execute_task o t loc s).2 = s)
    ∧ (∀ A (s : Ctx D) dA, (execute_task o A none s).1.success = true →
        (execute_task o A none s).1.data = some dA →
        execution_context (execute_task o A none s).2 none "df" = some dA)
    ∧ (∀ A B (s : Ctx D), (execute_task o A none s).1.success = true →
        (execute_workflow o s [A, B]).1.length = 2) := by
  refine ⟨?_, ?_, ?_, ?_⟩
  · intro t loc s d h1 h2
    exact (execute_task_ctx_update o t loc s).1 d h1 h2
  · intro t loc s h
    cases h with
    | inl h => exact (execute_task_ctx_update o t loc s).2.1 h
    | inr h => exact (execute_task_ctx_update o t loc s).2.2 h
  · intro A s dA h1 h2
    have hupd := (execute_task_ctx_update o A none s).1 dA h1 h2
    rw [hupd]
    simp [execution_context, merge_ctx, empty_ctx]
  · intro A B s h1
    simp only [execute_workflow, h1, Bool.not_true, Bool.false_and,
      Bool.false_eq_true, if_false]
    cases hb : (!(execute_task o B none (execute_task o A none s).2).1.success &&
        B.critical.getD false) <;> simp [hb]

/-- Witness for C3: a successful load writes its dataset into the
context that the next task will receive. -/
theorem context_update_rule_witness :
    execution_context (execute_task o_demo task_load_csv none empty_ctx).2
        none "df" = some 2 :=
  (context_update_rule o_demo).2.2.1 task_load_csv empty_ctx 2
    (by decide) (by decide)

/-- C10: the "df" write-back is uniform over agents and data values; in
particular after a successful profile task the shared context's "df"
entry is the profiling statistics value, and it is what the merged
execution context of any subsequent task presents as the active
dataset. -/
theorem context_write_uniform {D : Type} (o : Oracle D) :
    (∀ t loc (s : Ctx D) d, (execute_task o t loc s).1.success = true →
        (execute_task o t loc s).1.data = some d →
        (execute_task o t loc s).2 "df" = some d)
    ∧ (∀ t loc (s : Ctx D) df stats,
        route_task t = some AgentKind.profiling →
        execution_context s loc "df" = some df →
        o.generate_profile df (t.output_path.getD "data/reports/profile.html") =
          Except.ok () →
        o.quick_stats df = Except.ok stats →
        (execute_task o t loc s).1.data = some stats
        ∧ (execute_task o t loc s).2 "df" = some stats
        ∧ execution_context (execute_task o t loc s).2 none "df" = some stats) := by
  have key : ∀ t loc (s : Ctx D) d, (execute_task o t loc s).1.success = true →
      (execute_task o t loc s).1.data = some d →
      (execute_task o t loc s).2 "df" = some d := by
    intro t loc s d h1 h2
    rw [(execute_task_ctx_update o t loc s).1 d h1 h2]
    simp
  refine ⟨key, ?_⟩
  intro t loc s df stats hr hdf hrep hqs
  have hbody : profiling_body o t (execution_context s loc) =
      Except.ok { success := true, data := some stats, error := none } := by
    simp [profiling_body, hdf, hrep, hqs]
  have hexec : profiling_execute o t (execution_context s loc) =
      { success := true, data := some stats, error := none } := by
    simp [profiling_execute, hbody]
  have hres : (execute_task o t loc s).1 =
      { success := true, data := some stats, error := none } := by
    simp [execute_task, hr, agent_execute, hexec]
  have h1 : (execute_task o t loc s).1.success = true := by rw [hres]
  have h2 : (execute_task o t loc s).1.data = some stats := by rw [hres]
  refine ⟨h2, key t loc s stats h1 h2, ?_⟩
  rw [(execute_task_ctx_update o t loc s).1 stats h1 h2]
  simp [execution_context, merge_ctx, empty_ctx]

/-- Witness for C10: after the demo profile task over dataset 5 the
context's "df" entry is the statistics value 95, not the dataset. -/
theorem context_write_uniform_witness :
    (execute_task o_demo task_profile none (ctx_df 5)).2 "df" = some 95 ∧
    (95 : Nat) ≠ 5 :=
  ⟨((context_write_uniform o_demo).2 task_profile none (ctx_df 5) 5 95
      (by decide) (by decide) (by decide) (by decide)).2.1, by decide⟩

/-- C9: `transform` without a dataset in context is a structured
"No DataFrame in context" failure; with a dataset it applies the
transformation list strictly in order (the loop distributes over list
append), supporting exactly drop_nulls (optionally scoped to truthy
column lists), fill_nulls (default fill value 0), convert_type
(column and dtype), and rename (column mapping), and silently skipping
any other entry; the transformed dataset is returned as `data` with
`success = true`. -/
theorem transform_semantics {D : Type} (o : Oracle D) :
    (∀ t (c : Ctx D), c "df" = none →
        transform_data o t c = fail_result "No DataFrame in context")
    ∧ (∀ t (c : Ctx D) df, c "df" = some df →
        transform_data o t c =
          match apply_transforms o df t.transformations with
          | Except.ok d => { success := true, data := some d, error := none }
          | Except.error e => fail_result ("Transformation failed: " ++ e))
    ∧ (∀ (df : D) l1 l2, apply_transforms o df (l1 ++ l2) =
        (apply_transforms o df l1).bind fun d => apply_transforms o d l2)
    ∧ (∀ (df : D) tr,
        (tr.ttype = some "drop_nulls" → transform_step o df tr =
          match tr.columns with
          | some (c0 :: cs) => o.dropna_subset (c0 :: cs) df
          | some [] => o.dropna_all df
          | none => o.dropna_all df)
        ∧ (tr.ttype = some "fill_nulls" → transform_step o df tr =
            o.fillna (tr.value.getD (PyVal.int 0)) df)
        ∧ (tr.ttype = some "convert_type" → transform_step o df tr =
            o.astype tr.column tr.dtype df)
        ∧ (tr.ttype = some "rename" → transform_step o df tr =
            o.rename_cols (tr.mapping.getD []) df)
        ∧ (tr.ttype ≠ some "drop_nulls" → tr.ttype ≠ some "fill_nulls" →
            tr.ttype ≠ some "convert_type" → tr.ttype ≠ some "rename" →
            transform_step o df tr = Except.ok df)) := by
  refine ⟨?_, ?_, ?_, ?_⟩
  · intro t c h
    simp [transform_data, h]
  · intro t c df h
    simp [transform_data, h]
  · intro df l1
    induction l1 generalizing df with
    | nil => intro l2; rfl
    | cons tr trs ih =>
        intro l2
        simp only [List.cons_append, apply_transforms]
        cases h : transform_step o df tr with
        | ok d2 => exact ih d2 l2
        | error e => rfl
  · intro df tr
    refine ⟨?_, ?_, ?_, ?_, ?_⟩ <;> intro h
    · simp [transform_step, h]
    · simp [transform_step, h]
    · simp [transform_step, h]
    · simp [transform_step, h]
    · intro h2 h3 h4
      simp [transform_step, h, h2, h3, h4]

/-- Witness for C9: two transformations applied in order under the demo
collaborators (5 + 40 then + 50). -/
theorem transform_semantics_witness :
    transform_data o_demo task_transform_demo (ctx_df 5) =
      { success := true, data := some 95, error := none } := by
  have h := (transform_semantics o_demo).2.1 task_transform_demo (ctx_df 5) 5
    (by decide)
  rw [h]
  decide


/-- Every `_load_data` failure carries an error message. -/
theorem load_data_wf {D : Type} (o : Oracle D) (t : PTask) :
    wf_result (load_data o t) := by
  unfold wf_result load_data
  repeat' split
  all_goals simp [fail_result]

/-- Every `_transform_data` failure carries an error message. -/
theorem transform_data_wf {D : Type} (o : Oracle D) (t : PTask) (c : Ctx D) :
    wf_result (transform_data o t c) := by
  unfold wf_result transform_data
  repeat' split
  all_goals simp [fail_result]

/-- Every `_filter_data` failure carries an error message. -/
theorem filter_data_wf {D : Type} (o : Oracle D) (t : PTask) (c : Ctx D) :
    wf_result (filter_data o t c) := by
  unfold wf_result filter_data
  cases hdf : c "df" with
  | none => simp [fail_result]
  | some df =>
      cases hb : filter_body o t df with
      | error e => simp [hb, fail_result]
      | ok df2 => simp [hb]

/-- Every `_save_data` failure carries an error message. -/
theorem save_data_wf {D : Type} (o : Oracle D) (t : PTask) (c : Ctx D) :
    wf_result (save_data o t c) := by
  unfold wf_result save_data
  cases hdf : c "df" with
  | none => simp [fail_result]
  | some df =>
      cases hb : save_body o t df with
      | error e => simp [hb, fail_result]
      | ok u => simp [hb]

/-- Every ETL failure carries an error message. -/
theorem etl_execute_wf {D : Type} (o : Oracle D) (t : PTask) (c : Ctx D) :
    wf_result (etl_execute o t c) := by
  unfold etl_execute
  split_ifs
  · exact load_data_wf o t
  · exact transform_data_wf o t c
  · exact save_data_wf o t c
  · exact filter_data_wf o t c
  · intro h
    simp [fail_result]

/-- Ordinary returns of the query try body are structurally sound, given
the spec-stated sandbox contract. -/
theorem query_body_ok_wf {D : Type} (o : Oracle D) (hwf : sandbox_wf o)
    (t : PTask) (c : Ctx D) (r : ExecutionResult D)
    (h : query_body o t c = Except.ok r) : wf_result r := by
  unfold query_body at h
  split at h
  · cases h
    simp [wf_result, fail_result]
  · split at h
    · cases h
    · split at h
      · cases h
      · cases h
        intro hs
        exact hwf _ _ hs

/-- Ordinary returns of the profiling try body are structurally sound. -/
theorem profiling_body_ok_wf {D : Type} (o : Oracle D) (t : PTask)
    (c : Ctx D) (r : ExecutionResult D)
    (h : profiling_body o t c = Except.ok r) : wf_result r := by
  unfold profiling_body at h
  split at h
  · cases h
    simp [wf_result, fail_result]
  · split at h
    · cases h
    · split at h
      · cases h
      · cases h
        intro hs
        cases hs

/-- Every query failure carries an error message, given the spec-stated
sandbox contract. -/
theorem query_execute_wf {D : Type} (o : Oracle D) (hwf : sandbox_wf o)
    (t : PTask) (c : Ctx D) : wf_result (query_execute o t c) := by
  unfold query_execute
  cases hb : query_body o t c with
  | error e => simp [wf_result, fail_result]
  | ok r => exact query_body_ok_wf o hwf t c r hb

/-- Every profiling failure carries an error message. -/
theorem profiling_execute_wf {D : Type} (o : Oracle D) (t : PTask)
    (c : Ctx D) : wf_result (profiling_execute o t c) := by
  unfold profiling_execute
  cases hb : profiling_body o t c with
  | error e => simp [wf_result, fail_result]
  | ok r => exact profiling_body_ok_wf o t c r hb

/-- C2: agent exceptions never escape: an exception raised inside the
query or profiling try body surfaces as `{success: false, error: str(e)}`
(each public operation of the embedding is a total function into
structured results, so no exceptional outcome exists at all), and — given
the spec-stated sandbox contract for the absent `SafeCodeExecutor` —
every failed result of `execute_task` carries a non-null error string. -/
theorem structured_error_envelope {D : Type} (o : Oracle D) :
    (∀ t (c : Ctx D) e, query_body o t c = Except.error e →
        query_execute o t c = fail_result e)
    ∧ (∀ t (c : Ctx D) e, profiling_body o t c = Except.error e →
        profiling_execute o t c = fail_result e)
    ∧ (∀ t (c : Ctx D), (etl_execute o t c).success = false →
        (etl_execute o t c).error ≠ none)
    ∧ (sandbox_wf o → ∀ t loc (s : Ctx D),
        (execute_task o t loc s).1.success = false →
        (execute_task o t loc s).1.error ≠ none) := by
  refine ⟨?_, ?_, fun t c => etl_execute_wf o t c, ?_⟩
  · intro t c e h
    simp [query_execute, h]
  · intro t c e h
    simp [profiling_execute, h]
  · intro hwf t loc s
    cases hr : route_task t with
    | none => simp [execute_task, hr, fail_result]
    | some k =>
        have hagent : (execute_task o t loc s).1 =
            agent_execute o k t (execution_context s loc) := by
          simp only [execute_task, hr]
          cases hd : (agent_execute o k t (execution_context s loc)).data with
          | none => rfl
          | some d =>
              cases hs : (agent_execute o k t (execution_context s loc)).success <;>
                simp [hd, hs]
        rw [hagent]
        cases k with
        | etl => exact etl_execute_wf o t (execution_context s loc)
        | query => exact query_execute_wf o hwf t (execution_context s loc)
        | profiling => exact profiling_execute_wf o t (execution_context s loc)

/-- Witness for C2: an LLM connection failure inside the query agent is
converted into a structured failure carrying the exception string. -/
theorem structured_error_envelope_witness :
    query_execute o_llm_fail task_query_demo (ctx_df 7) =
      fail_result "connection refused" :=
  (structured_error_envelope o_llm_fail).1 task_query_demo (ctx_df 7)
    "connection refused" (by decide)
